import Mathlib

/-!
Shallow embedding of the PyPAM sandboxed-execution session orchestrator
(`pypam.py`).  The WebSocket handler `run_code` (source lines 391-674), the
brute-force guard `check_brute_force` (lines 148-160) and the credential
store round trip `get_allowlist` / `save_allowlist` (lines 172-200) are
modelled as pure functions over an explicit server state.  Behaviour of the
outside world (the client's messages, the container runtime, the host file
system) is supplied by an `Oracle` record, and everything the handler does
that is externally visible is recorded as an ordered event trace, so that
temporal claims (ordering of rejections, attach-before-start, teardown
before slot release, last-message-is-end) become statements about traces.
-/

namespace Pypam

/-- Configuration values read by the orchestrator (source lines 114-142).
The source reads them from environment variables with fixed defaults; we
keep them abstract so claims quantified over configurations can be stated. -/
structure Config where
  maxConcurrentUsers : Nat
  maxFailedAttempts : Nat
  bruteForceCooldown : Int
  executionTimeout : Int
deriving DecidableEq, Repr

/-- Default configuration from the source constants (lines 116-142):
`MAX_CONCURRENT_USERS = 10`, `MAX_FAILED_ATTEMPTS = 5`,
`BRUTE_FORCE_COOLDOWN = 600`, `EXECUTION_TIMEOUT = 300`. -/
def defaultConfig : Config :=
  { maxConcurrentUsers := 10
    maxFailedAttempts := 5
    bruteForceCooldown := 600
    executionTimeout := 300 }

/-- One entry of the `failed_logins` defaultdict (line 145):
`{"count": int, "last_attempt": float}`.  Timestamps are modelled as
integers; only their differences are compared against the cooldown. -/
structure BFRecord where
  count : Nat
  lastAttempt : Int
deriving DecidableEq, Repr

/-- Reading `failed_logins[ip]`: a missing key yields the defaultdict
default `{"count": 0, "last_attempt": 0}`. -/
def lookupBF (m : List (String × BFRecord)) (ip : String) : BFRecord :=
  (m.lookup ip).getD ⟨0, 0⟩

/-- Writing `failed_logins[ip] = r` (in-place mutation in the source). -/
def setBF (m : List (String × BFRecord)) (ip : String) (r : BFRecord) :
    List (String × BFRecord) :=
  (ip, r) :: m.filter (fun e => e.1 != ip)

/-- `failed_logins.pop(ip, None)` (line 459). -/
def popBF (m : List (String × BFRecord)) (ip : String) :
    List (String × BFRecord) :=
  m.filter (fun e => e.1 != ip)

/-- Source lines 148-160.  `check_brute_force(ip)` reads the origin's
record; if the failure count has reached the threshold it compares the
elapsed time with the cooldown, returning `(False, remaining)` inside the
cooldown and resetting the counter to zero (a state change, returned here
as the first component) once the cooldown has fully elapsed; in every
other case it returns `(True, 0)`.  The Python function mutates the
`failed_logins` dict in place; here the updated map is returned. -/
def check_brute_force (cfg : Config) (m : List (String × BFRecord))
    (ip : String) (now : Int) : List (String × BFRecord) × Bool × Int :=
  let record := lookupBF m ip
  if record.count ≥ cfg.maxFailedAttempts then
    let timePassed := now - record.lastAttempt
    if timePassed < cfg.bruteForceCooldown then
      (m, false, cfg.bruteForceCooldown - timePassed)
    else
      (setBF m ip { record with count := 0 }, true, 0)
  else
    (m, true, 0)

/-- A JSON message sent to the client over the WebSocket: either an output
chunk `{"t": "out", "d": d}` or the termination message `{"t": "end",
"c": c}`. -/
inductive Msg where
  | out (d : String)
  | endMsg (c : Int)
deriving DecidableEq, Repr

/-- Externally visible actions of one invocation of the handler, in the
order the handler performs them. -/
inductive Ev where
  | send (m : Msg)
  | acquireSlot
  | mkTempDir
  | createContainer
  | attachSocket
  | startContainer
  | killContainer
  | removeActive (u : String)
  | removeContainer (ok : Bool)
  | rmTempDir (ok : Bool)
  | releaseSlot
deriving DecidableEq, Repr

/-- Where, if anywhere, an unanticipated exception is raised inside the
handler's `try` block: at the first `ws.receive_json()` (client
disconnected before sending anything, line 424), at
`client.containers.create` (line 487, the `container` variable stays
`None`), at `attach_socket`/`start` (lines 513-516, the container exists),
or after execution at `container.reload()` before any classification
message is sent (line 590).  `nofail` means the body runs to completion. -/
inductive FailPoint where
  | nofail
  | atReceive
  | atCreate
  | atAttachStart
  | atReport
deriving DecidableEq, Repr

/-- Everything the environment decides during one session: the content of
the client's first message (already stripped, as the source strips
username and password on receipt), the wall-clock time at the
authentication checks, the exception point, the output chunks the
`forward_output` task relays, whether the interactive loop ended by
timeout, the container's final state, the buffered log fetch, and whether
each best-effort teardown step succeeds. -/
structure Oracle where
  username : String
  password : String
  code : String
  ip : String
  now : Int
  failAt : FailPoint
  outputChunks : List String
  timedOut : Bool
  exitCode : Int
  oomKilled : Bool
  logs : String
  logsFetchOk : Bool
  removeContainerOk : Bool
  rmtreeOk : Bool
deriving DecidableEq, Repr

/-- The server state shared across sessions: the allowlist as read at line
411, the `active_sessions` set (line 169, a Python set, so duplicate-free),
the `failed_logins` map (line 145) and the number of free slots of the
`user_lock` semaphore (line 235; `user_lock.locked()` is `slots = 0`). -/
structure ServerState where
  users : List (String × String)
  activeSessions : List String
  failedLogins : List (String × BFRecord)
  slots : Nat
deriving DecidableEq, Repr

/-- Notice text of line 405. -/
def busyNotice : String := "\n[Server Busy] Please wait...\n"

/-- Notice text of line 437. -/
def rateLimitNotice (waitTime : Int) : String :=
  "\n[Access Denied] Wait " ++ toString waitTime ++ "s.\n"

/-- Notice text of line 454. -/
def invalidCredsNotice : String := "\n[Access Denied] Invalid credentials.\n"

/-- Notice text of line 467. -/
def alreadyActiveNotice : String := "\n[Access Denied] User already active.\n"

/-- Notice text of line 558. -/
def timeoutNotice (t : Int) : String :=
  "\n[Execution Timeout] Script killed after " ++ toString t ++ "s.\n"

/-- Notice text of line 603 (`MEM_LIMIT` is the constant `"48m"`). -/
def oomNotice : String :=
  "\n[Resource Limit] Out of Memory: Script exceeded 48m.\n"

/-- Notice text of line 619. -/
def pidLimitNotice : String :=
  "\n[Resource Limit] Script terminated (Likely hit process limit).\n"

/-- Notice text of line 653, `f"\nSystem Error: {e}\n"`; the interpolated
exception text is abstracted away. -/
def systemErrorNotice : String := "\nSystem Error\n"

/-- How the handler's body ended. -/
inductive ExitPath where
  | busy
  | rateLimited
  | badCreds
  | duplicate
  | emptyCode
  | ran
  | internalError
deriving DecidableEq, Repr

/-- Outcome classification, source lines 595-631: the OOM flag is checked
first (line 595); otherwise exit code `137` is reported as a likely
process-limit kill unless the run reached the execution timeout (lines
606-621, where the source re-derives "reached timeout" from the elapsed
time; we model it by the same flag that ended the loop); any other
non-zero exit code and the zero exit code produce no extra message (lines
622-631 only log). -/
def classificationMsgs (oomKilled : Bool) (exitCode : Int) (timedOut : Bool) :
    List Msg :=
  if oomKilled then [Msg.out oomNotice]
  else if exitCode = 137 then
    if timedOut then [] else [Msg.out pidLimitNotice]
  else []

/-- Fallback log retrieval, source lines 633-644: a single best-effort
fetch of `container.logs()` performed only when no live output chunk was
ever forwarded and the exit code is non-zero; the fetched text is
forwarded only if non-empty, and a fetch failure is swallowed. -/
def fallbackLogMsgs (hasSentOutput : Bool) (exitCode : Int)
    (logsFetchOk : Bool) (logs : String) : List Msg :=
  if hasSentOutput = false ∧ exitCode ≠ 0 then
    if logsFetchOk then
      if logs ≠ "" then [Msg.out logs] else []
    else []
  else []

/-- Sending a list of messages in order, as events. -/
def sendAll (l : List Msg) : List Ev := l.map Ev.send

/-- Result of the `try` body (lines 422-654 without the `finally`): the
state after the body, the events it performed, how it exited, the value of
the Python `username` variable at the end (`none` if the first receive
raised before assigning it), and whether `container` is non-`None`. -/
structure BodyResult where
  state : ServerState
  events : List Ev
  exitPath : ExitPath
  username : Option String
  containerCreated : Bool
deriving DecidableEq, Repr

/-- The `try` body of the handler, lines 422-654, one branch per source
control path.  Output chunks are relayed concurrently with the interactive
loop in the source; the trace linearises them after the loop's own events
and before the post-exit classification, which preserves every ordering
the source guarantees (all output precedes classification, fallback logs
and the termination message). -/
def runBody (cfg : Config) (st : ServerState) (o : Oracle) : BodyResult :=
  if o.failAt = FailPoint.atReceive then
    ⟨st, [Ev.send (Msg.out systemErrorNotice), Ev.send (Msg.endMsg 1)],
      ExitPath.internalError, none, false⟩
  else
    let bf := check_brute_force cfg st.failedLogins o.ip o.now
    let st1 : ServerState := { st with failedLogins := bf.1 }
    if bf.2.1 = false then
      ⟨st1, [Ev.send (Msg.out (rateLimitNotice bf.2.2)), Ev.send (Msg.endMsg 1)],
        ExitPath.rateLimited, some o.username, false⟩
    else if st1.users.lookup o.username ≠ some o.password then
      let r := lookupBF st1.failedLogins o.ip
      let st2 : ServerState :=
        { st1 with failedLogins := setBF st1.failedLogins o.ip ⟨r.count + 1, o.now⟩ }
      ⟨st2, [Ev.send (Msg.out invalidCredsNotice), Ev.send (Msg.endMsg 1)],
        ExitPath.badCreds, some o.username, false⟩
    else
      let st3 : ServerState := { st1 with failedLogins := popBF st1.failedLogins o.ip }
      if o.username ∈ st3.activeSessions then
        ⟨st3, [Ev.send (Msg.out alreadyActiveNotice), Ev.send (Msg.endMsg 1)],
          ExitPath.duplicate, some o.username, false⟩
      else
        let st4 : ServerState :=
          { st3 with activeSessions := o.username :: st3.activeSessions }
        if o.code = "" then
          ⟨st4, [], ExitPath.emptyCode, some o.username, false⟩
        else if o.failAt = FailPoint.atCreate then
          ⟨st4, [Ev.send (Msg.out systemErrorNotice), Ev.send (Msg.endMsg 1)],
            ExitPath.internalError, some o.username, false⟩
        else if o.failAt = FailPoint.atAttachStart then
          ⟨st4, [Ev.createContainer, Ev.send (Msg.out systemErrorNotice),
              Ev.send (Msg.endMsg 1)],
            ExitPath.internalError, some o.username, true⟩
        else
          let startEvs := [Ev.createContainer, Ev.attachSocket, Ev.startContainer]
          let loopEvs :=
            if o.timedOut then
              [Ev.send (Msg.out (timeoutNotice cfg.executionTimeout)), Ev.killContainer]
            else []
          let outEvs := sendAll (o.outputChunks.map Msg.out)
          if o.failAt = FailPoint.atReport then
            ⟨st4, startEvs ++ loopEvs ++ outEvs ++
                [Ev.send (Msg.out systemErrorNotice), Ev.send (Msg.endMsg 1)],
              ExitPath.internalError, some o.username, true⟩
          else
            let classEvs := sendAll (classificationMsgs o.oomKilled o.exitCode o.timedOut)
            let fbEvs :=
              sendAll (fallbackLogMsgs (!o.outputChunks.isEmpty) o.exitCode
                o.logsFetchOk o.logs)
            ⟨st4, startEvs ++ loopEvs ++ outEvs ++ classEvs ++ fbEvs ++
                [Ev.send (Msg.endMsg o.exitCode)],
              ExitPath.ran, some o.username, true⟩

/-- The `finally` block, source lines 655-674: removes the username from
`active_sessions` when the `username` variable is truthy (a non-empty
string) and the set contains it; force-removes the container if one was
created (failure swallowed, lines 660-666); recursively removes the
temporary directory, which exists on every path that reaches the block
(failure swallowed, lines 667-674). -/
def teardown (st : ServerState) (username : Option String)
    (containerCreated : Bool) (o : Oracle) : ServerState × List Ev :=
  let p1 : ServerState × List Ev :=
    match username with
    | some u =>
      if u ≠ "" ∧ u ∈ st.activeSessions then
        ({ st with activeSessions := st.activeSessions.erase u }, [Ev.removeActive u])
      else (st, [])
    | none => (st, [])
  let evC := if containerCreated then [Ev.removeContainer o.removeContainerOk] else []
  (p1.1, p1.2 ++ evC ++ [Ev.rmTempDir o.rmtreeOk])

/-- Result of one full invocation of the handler: the shared state after
it returns, the ordered trace of its externally visible actions, and how
it exited. -/
structure RunResult where
  state : ServerState
  events : List Ev
  exitPath : ExitPath
deriving DecidableEq, Repr

/-- The handler `run_code`, source lines 391-674.  The early capacity
check `user_lock.locked()` (line 400) rejects with a busy notice and
`end` code 1 without acquiring a slot; otherwise a slot is acquired
(`async with user_lock`, line 414), the temporary directory is created
(line 417), the body runs inside `try`, the `finally` teardown runs, and
the slot is released when the `async with` block exits. -/
def run_code (cfg : Config) (st : ServerState) (o : Oracle) : RunResult :=
  if st.slots = 0 then
    ⟨st, [Ev.send (Msg.out busyNotice), Ev.send (Msg.endMsg 1)], ExitPath.busy⟩
  else
    let st1 : ServerState := { st with slots := st.slots - 1 }
    let b := runBody cfg st1 o
    let td := teardown b.state b.username b.containerCreated o
    let st2 : ServerState := { td.1 with slots := td.1.slots + 1 }
    ⟨st2, Ev.acquireSlot :: Ev.mkTempDir :: (b.events ++ td.2 ++ [Ev.releaseSlot]),
      b.exitPath⟩

/-- Projection of an event to the message it sends, if any. -/
def sentMsg : Ev → Option Msg
  | Ev.send m => some m
  | _ => none

/-- The stream of messages a run sends to the client, in order. -/
def msgs (r : RunResult) : List Msg := r.events.filterMap sentMsg

/-- Recogniser for the termination message. -/
def isEndMsg : Msg → Bool
  | Msg.endMsg _ => true
  | _ => false

/-- Number of termination messages in a message stream. -/
def countEnd (l : List Msg) : Nat := (l.filter isEndMsg).length

/-!
Credential store: character-level model of `get_allowlist` (lines 172-188)
and `save_allowlist` (lines 191-200).  Strings are modelled as `List Char`
because the round-trip behaviour hinges on character-level details:
Python's text-mode line iteration (universal newlines, where a bare
carriage return is also a line break), `str.strip()` of surrounding
whitespace, and `split(":", 1)` at the first colon.  The dictionary is
modelled as an association list in file order; for distinct usernames this
is exactly the dict's content and iteration order.
-/

/-- Whitespace as removed by Python's `str.strip()`: exactly the
characters for which Python's `str.isspace()` holds — the ASCII
whitespace range, the information-separator controls, the next-line
control U+0085, and the Unicode space, line and paragraph separators
(U+00A0, U+1680, U+2000-U+200A, U+2028, U+2029, U+202F, U+205F,
U+3000). -/
def isSpaceChar (c : Char) : Bool :=
  decide ((0x09 ≤ c.toNat ∧ c.toNat ≤ 0x0D) ∨ (0x1C ≤ c.toNat ∧ c.toNat ≤ 0x1F) ∨
    c.toNat = 0x20 ∨ c.toNat = 0x85 ∨ c.toNat = 0xA0 ∨ c.toNat = 0x1680 ∨
    (0x2000 ≤ c.toNat ∧ c.toNat ≤ 0x200A) ∨ c.toNat = 0x2028 ∨ c.toNat = 0x2029 ∨
    c.toNat = 0x202F ∨ c.toNat = 0x205F ∨ c.toNat = 0x3000)

/-- `line.strip()` (line 184): drops leading and trailing whitespace. -/
def pyStrip (s : List Char) : List Char :=
  ((s.dropWhile isSpaceChar).reverse.dropWhile isSpaceChar).reverse

/-- Universal-newline translation performed by text-mode file reading:
`"\r\n"` and a bare `'\r'` both become `'\n'`. -/
def normalizeNewlines : List Char → List Char
  | [] => []
  | [c] => if c = '\r' then ['\n'] else [c]
  | c :: d :: rest =>
    if c = '\r' then
      if d = '\n' then '\n' :: normalizeNewlines rest
      else '\n' :: normalizeNewlines (d :: rest)
    else c :: normalizeNewlines (d :: rest)

/-- Splits a (newline-normalized) character stream at each `'\n'`. -/
def splitLinesNL : List Char → List (List Char)
  | [] => [[]]
  | c :: rest =>
    if c = '\n' then [] :: splitLinesNL rest
    else
      match splitLinesNL rest with
      | [] => [[c]]
      | l :: ls => (c :: l) :: ls

/-- The lines `for line in f` iterates over (the final segment after the
last newline is an extra line; when empty it is skipped downstream because
it contains no colon). -/
def fileLines (s : List Char) : List (List Char) :=
  splitLinesNL (normalizeNewlines s)

/-- `line.split(":", 1)` guarded by `if ":" in line` (lines 185-186):
`none` when the line has no colon, otherwise the parts before and after
the first colon. -/
def splitFirstColon : List Char → Option (List Char × List Char)
  | [] => none
  | c :: rest =>
    if c = ':' then some ([], rest)
    else
      match splitFirstColon rest with
      | some (u, p) => some (c :: u, p)
      | none => none

/-- `get_allowlist` (lines 172-188): strips each line and keeps the lines
containing a colon, split at the first colon into `(username, password)`.
The missing-file case (line 179) returns the empty map and is outside the
round trip. -/
def get_allowlist (file : List Char) : List (List Char × List Char) :=
  (fileLines file).filterMap (fun line => splitFirstColon (pyStrip line))

/-- `save_allowlist` (lines 191-200): writes `f"{u}:{p}\n"` for every
entry in order. -/
def save_allowlist (users : List (List Char × List Char)) : List Char :=
  users.foldr (fun up acc => up.1 ++ ':' :: up.2 ++ '\n' :: acc) []

/-- A string that does not begin with strippable whitespace ([] counts). -/
def noLeadingSpace (l : List Char) : Bool :=
  match l with
  | [] => true
  | c :: _ => !isSpaceChar c

/-- A string that does not end with strippable whitespace ([] counts). -/
def noTrailingSpace (l : List Char) : Bool := noLeadingSpace l.reverse

/-- Conditions under which one allowlist entry survives the round trip:
the claim's own conditions (non-empty username free of colons and
newlines, newline-free password) strengthened by exactly what the
counterexamples force: no carriage return (text-mode reading also breaks
lines at a bare `'\r'`), the username must not begin with strippable
whitespace and the password must not end with it, where strippable means
Python's full `str.strip()` whitespace set including Unicode whitespace
(`line.strip()` removes both ends of each line before splitting). -/
def goodEntry (up : List Char × List Char) : Prop :=
  up.1 ≠ [] ∧ ':' ∉ up.1 ∧ '\n' ∉ up.1 ∧ '\r' ∉ up.1 ∧ noLeadingSpace up.1 = true ∧
    '\n' ∉ up.2 ∧ '\r' ∉ up.2 ∧ noTrailingSpace up.2 = true

instance (up : List Char × List Char) : Decidable (goodEntry up) := by
  unfold goodEntry; infer_instance

/-!
Concrete inputs used to evaluate the model at specific points.
-/

/-- A server state with one student, nobody active, all slots free. -/
def stFree : ServerState :=
  { users := [("alice", "pw")]
    activeSessions := []
    failedLogins := []
    slots := 10 }

/-- The state while alice's first session is running: alice is in the
active set and one slot is held. -/
def stHeld : ServerState := { stFree with activeSessions := ["alice"], slots := 9 }

/-- The state when all slots are held. -/
def stFull : ServerState := { stFree with slots := 0 }

/-- A session that authenticates as alice, runs a program to completion
with one output chunk and exit code 0, with all teardown steps
succeeding. -/
def oRun : Oracle :=
  { username := "alice"
    password := "pw"
    code := "print(1)"
    ip := "10.0.0.7"
    now := 0
    failAt := FailPoint.nofail
    outputChunks := ["1\n"]
    timedOut := false
    exitCode := 0
    oomKilled := false
    logs := ""
    logsFetchOk := true
    removeContainerOk := true
    rmtreeOk := true }

/-- A session whose program crashes instantly: no live output, exit code
1, with a traceback in the buffered log. -/
def oCrash : Oracle := { oRun with outputChunks := [], exitCode := 1, logs := "Traceback" }

/-- A session submitting a blank program. -/
def oEmpty : Oracle := { oRun with code := "" }

/-- A session where both container removal and workspace removal fail. -/
def oBadCleanup : Oracle := { oRun with removeContainerOk := false, rmtreeOk := false }

/-- A server state whose allowlist contains the empty username, as
`get_allowlist` produces from the malformed credential line `":pw"`. -/
def stEmptyUser : ServerState :=
  { users := [("", "pw")]
    activeSessions := []
    failedLogins := []
    slots := 10 }

/-- A session authenticating with the empty username (a whitespace-only
username is also stripped to `""` by the handler on receipt). -/
def oEmptyUser : Oracle := { oRun with username := "", password := "pw" }

/-- An allowlist whose single password is one space: inside the claimed
conditions (non-empty colon-free newline-free username, newline-free
password), yet `line.strip()` erases the password on read-back. -/
def exUsersBad : List (List Char × List Char) := [(['a'], [' '])]

/-- An allowlist with a colon inside a password and an empty password,
both of which do round-trip. -/
def exUsersGood : List (List Char × List Char) :=
  [(['a'], ['b', ':', 'c']), (['u', 'v'], [])]

/-!
Helper lemmas about the credential-store model.
-/

theorem normalizeNewlines_eq_self (s : List Char) (h : '\r' ∉ s) :
    normalizeNewlines s = s := by
  induction s with
  | nil => rfl
  | cons c rest ih =>
    have hc : c ≠ '\r' := by rintro rfl; exact h (List.mem_cons_self _ _)
    have hr : '\r' ∉ rest := fun hm => h (List.mem_cons_of_mem _ hm)
    cases rest with
    | nil => simp [normalizeNewlines, hc]
    | cons d t => simp [normalizeNewlines, hc, ih hr]

theorem splitLinesNL_append (s rest : List Char) (h : '\n' ∉ s) :
    splitLinesNL (s ++ '\n' :: rest) = s :: splitLinesNL rest := by
  induction s with
  | nil => simp [splitLinesNL]
  | cons c s ih =>
    have hc : c ≠ '\n' := by rintro rfl; exact h (List.mem_cons_self _ _)
    have hs : '\n' ∉ s := fun hm => h (List.mem_cons_of_mem _ hm)
    simp [splitLinesNL, hc, ih hs]

theorem dropWhile_space_eq_self (l : List Char) (h : noLeadingSpace l = true) :
    l.dropWhile isSpaceChar = l := by
  cases l with
  | nil => rfl
  | cons c t =>
    simp only [noLeadingSpace, Bool.not_eq_true'] at h
    simp [List.dropWhile_cons, h]

theorem pyStrip_eq_self (l : List Char) (h1 : noLeadingSpace l = true)
    (h2 : noTrailingSpace l = true) : pyStrip l = l := by
  unfold noTrailingSpace at h2
  unfold pyStrip
  rw [dropWhile_space_eq_self l h1, dropWhile_space_eq_self l.reverse h2,
    List.reverse_reverse]

theorem splitFirstColon_append (u p : List Char) (h : ':' ∉ u) :
    splitFirstColon (u ++ ':' :: p) = some (u, p) := by
  induction u with
  | nil => simp [splitFirstColon]
  | cons c t ih =>
    have hc : c ≠ ':' := by rintro rfl; exact h (List.mem_cons_self _ _)
    have ht : ':' ∉ t := fun hm => h (List.mem_cons_of_mem _ hm)
    simp [splitFirstColon, hc, ih ht]

theorem save_allowlist_cons (up : List Char × List Char)
    (rest : List (List Char × List Char)) :
    save_allowlist (up :: rest) = (up.1 ++ ':' :: up.2) ++ '\n' :: save_allowlist rest := by
  simp [save_allowlist, List.append_assoc]

theorem save_allowlist_no_cr (users : List (List Char × List Char))
    (h : ∀ up ∈ users, '\r' ∉ up.1 ∧ '\r' ∉ up.2) :
    '\r' ∉ save_allowlist users := by
  induction users with
  | nil => simp [save_allowlist]
  | cons up rest ih =>
    have h1 := h up (List.mem_cons_self _ _)
    have h2 : ∀ v ∈ rest, '\r' ∉ v.1 ∧ '\r' ∉ v.2 :=
      fun v hv => h v (List.mem_cons_of_mem _ hv)
    rw [save_allowlist_cons]
    simp [List.mem_append, h1.1, h1.2, ih h2]

theorem noLeadingSpace_append (l x : List Char) (h : l ≠ []) :
    noLeadingSpace (l ++ x) = noLeadingSpace l := by
  cases l with
  | nil => exact absurd rfl h
  | cons c t => rfl

theorem isSpaceChar_colon : isSpaceChar ':' = false := by decide

theorem noTrailingSpace_line (u p : List Char) (h : noTrailingSpace p = true) :
    noTrailingSpace (u ++ ':' :: p) = true := by
  unfold noTrailingSpace at h ⊢
  rw [List.reverse_append, List.reverse_cons]
  cases hp : p.reverse with
  | nil => simp [noLeadingSpace, isSpaceChar_colon]
  | cons a t =>
    rw [hp] at h
    simpa [noLeadingSpace] using h

/-- C10: the claim as frozen is refuted by `exUsersBad`: its single entry
satisfies every condition the claim imposes (non-empty username without
colon or newline, newline-free password), yet reading back the saved file
yields a different mapping, because `line.strip()` removes the
password's whitespace. -/
theorem C10_roundtrip_counterexample :
    (∀ up ∈ exUsersBad,
      up.1 ≠ [] ∧ ':' ∉ up.1 ∧ '\n' ∉ up.1 ∧ '\n' ∉ up.2) ∧
    get_allowlist (save_allowlist exUsersBad) ≠ exUsersBad := by decide

/-- C10 (amended): the round trip `get_allowlist (save_allowlist users) =
users` holds for every allowlist whose entries satisfy the claim's
conditions strengthened exactly by what the counterexample forces: no
carriage return in usernames or passwords (the text-mode reader treats a
bare `'\r'` as a line break too), usernames not beginning with
strippable whitespace and passwords not ending with it, whitespace being
Python's full `str.strip()` set including Unicode whitespace such as
U+00A0 (the reader strips each line before splitting).  Passwords may
contain `':'`, since parsing splits each line at the first colon only. -/
theorem C10_allowlist_roundtrip (users : List (List Char × List Char))
    (h : ∀ up ∈ users, goodEntry up) :
    get_allowlist (save_allowlist users) = users := by
  induction users with
  | nil => rfl
  | cons up rest ih =>
    obtain ⟨hne, hcol, hnl1, hcr1, hls, hnl2, hcr2, hts⟩ := h up (List.mem_cons_self _ _)
    have hrest : ∀ v ∈ rest, goodEntry v := fun v hv => h v (List.mem_cons_of_mem _ hv)
    have hcrs : ∀ v ∈ up :: rest, '\r' ∉ v.1 ∧ '\r' ∉ v.2 := by
      intro v hv
      obtain ⟨-, -, -, a, -, -, b, -⟩ := h v hv
      exact ⟨a, b⟩
    have hcrall : '\r' ∉ save_allowlist (up :: rest) := save_allowlist_no_cr _ hcrs
    have hcrrest : '\r' ∉ save_allowlist rest :=
      save_allowlist_no_cr _ (fun v hv => hcrs v (List.mem_cons_of_mem _ hv))
    have hlinenl : '\n' ∉ up.1 ++ ':' :: up.2 := by
      simp [List.mem_append, hnl1, hnl2]
    have hstrip : pyStrip (up.1 ++ ':' :: up.2) = up.1 ++ ':' :: up.2 := by
      refine pyStrip_eq_self _ ?_ (noTrailingSpace_line _ _ hts)
      rw [show up.1 ++ ':' :: up.2 = up.1 ++ (':' :: up.2) from rfl,
        noLeadingSpace_append _ _ hne]
      exact hls
    have htail : (splitLinesNL (save_allowlist rest)).filterMap
        (fun line => splitFirstColon (pyStrip line)) = rest := by
      have := ih hrest
      unfold get_allowlist fileLines at this
      rwa [normalizeNewlines_eq_self _ hcrrest] at this
    unfold get_allowlist fileLines
    rw [normalizeNewlines_eq_self _ hcrall, save_allowlist_cons,
      splitLinesNL_append _ _ hlinenl, List.filterMap_cons, hstrip,
      splitFirstColon_append _ _ hcol, htail]

/-- Witness for C10 as amended: a concrete allowlist containing a
password with an inner colon and an empty password round-trips exactly. -/
theorem C10_allowlist_roundtrip_witness :
    get_allowlist (save_allowlist exUsersGood) = exUsersGood :=
  C10_allowlist_roundtrip exUsersGood (by decide)

/-- C7: the brute-force guard returns not-allowed with the remaining wait
exactly when the origin's failure count has reached the threshold and
less than the cooldown has elapsed since its last failure; in every other
case it returns allowed with wait 0, and when the threshold is reached
and the cooldown has fully elapsed the origin's counter is reset to
zero. -/
theorem C7_check_brute_force (cfg : Config) (m : List (String × BFRecord))
    (ip : String) (now : Int) :
    ((check_brute_force cfg m ip now).2.1 = false ↔
      (lookupBF m ip).count ≥ cfg.maxFailedAttempts ∧
        now - (lookupBF m ip).lastAttempt < cfg.bruteForceCooldown) ∧
    ((check_brute_force cfg m ip now).2.1 = false →
      (check_brute_force cfg m ip now).2.2 =
        cfg.bruteForceCooldown - (now - (lookupBF m ip).lastAttempt) ∧
      0 < (check_brute_force cfg m ip now).2.2) ∧
    ((check_brute_force cfg m ip now).2.1 = true →
      (check_brute_force cfg m ip now).2.2 = 0) ∧
    ((lookupBF m ip).count ≥ cfg.maxFailedAttempts →
      cfg.bruteForceCooldown ≤ now - (lookupBF m ip).lastAttempt →
      (lookupBF (check_brute_force cfg m ip now).1 ip).count = 0) := by
  simp only [check_brute_force]
  split_ifs with h1 h2 <;>
    simp_all [lookupBF, setBF, List.lookup]

/-!
Helper lemmas about the session handler model.
-/

theorem sendAll_msgs (l : List Msg) : (sendAll l).filterMap sentMsg = l := by
  induction l with
  | nil => rfl
  | cons a t ih =>
    simp only [sendAll] at ih ⊢
    simp [sentMsg, ih]

theorem countEnd_append (a b : List Msg) :
    countEnd (a ++ b) = countEnd a + countEnd b := by
  simp [countEnd, List.filter_append]

theorem countEnd_nil : countEnd [] = 0 := rfl

theorem countEnd_out_one (s : String) : countEnd [Msg.out s] = 0 := rfl

theorem countEnd_out_cons (s : String) (l : List Msg) :
    countEnd (Msg.out s :: l) = countEnd l := by
  simp [countEnd, isEndMsg]

theorem countEnd_outs (l : List String) : countEnd (l.map Msg.out) = 0 := by
  induction l with
  | nil => rfl
  | cons a t ih => simp [countEnd, isEndMsg] at ih ⊢

theorem countEnd_classification (a : Bool) (b : Int) (c : Bool) :
    countEnd (classificationMsgs a b c) = 0 := by
  simp only [classificationMsgs]
  split_ifs <;> simp [countEnd, isEndMsg]

theorem countEnd_fallback (a : Bool) (b : Int) (c : Bool) (d : String) :
    countEnd (fallbackLogMsgs a b c d) = 0 := by
  simp only [fallbackLogMsgs]
  split_ifs <;> simp [countEnd, isEndMsg]

theorem teardown_no_msgs (st : ServerState) (un : Option String) (c : Bool)
    (o : Oracle) : (teardown st un c o).2.filterMap sentMsg = [] := by
  cases un with
  | none =>
    simp only [teardown]
    split_ifs <;> simp [sentMsg, List.filterMap_append]
  | some u =>
    simp only [teardown]
    split_ifs <;> simp [sentMsg, List.filterMap_append]

theorem teardown_slots (st : ServerState) (un : Option String) (c : Bool)
    (o : Oracle) : (teardown st un c o).1.slots = st.slots := by
  cases un with
  | none => rfl
  | some u =>
    simp only [teardown]
    split_ifs <;> rfl

theorem teardown_tail (st : ServerState) (un : Option String) (c : Bool)
    (o : Oracle) :
    ∃ q, (teardown st un c o).2 = q ++ [Ev.rmTempDir o.rmtreeOk] := by
  cases un <;> exact ⟨_, rfl⟩

theorem teardown_rm_mem (st : ServerState) (un : Option String) (c : Bool)
    (o : Oracle) : Ev.rmTempDir o.rmtreeOk ∈ (teardown st un c o).2 := by
  obtain ⟨q, hq⟩ := teardown_tail st un c o
  simp [hq]

theorem teardown_container_mem (st : ServerState) (un : Option String)
    (o : Oracle) :
    Ev.removeContainer o.removeContainerOk ∈ (teardown st un true o).2 := by
  cases un with
  | none => simp [teardown]
  | some u =>
    simp only [teardown]
    split_ifs <;> simp

theorem teardown_no_create (st : ServerState) (un : Option String) (c : Bool)
    (o : Oracle) : Ev.createContainer ∉ (teardown st un c o).2 := by
  cases un with
  | none =>
    simp only [teardown]
    split_ifs <;> simp
  | some u =>
    simp only [teardown]
    split_ifs <;> simp

theorem teardown_no_start (st : ServerState) (un : Option String) (c : Bool)
    (o : Oracle) : Ev.startContainer ∉ (teardown st un c o).2 := by
  cases un with
  | none =>
    simp only [teardown]
    split_ifs <;> simp
  | some u =>
    simp only [teardown]
    split_ifs <;> simp

theorem not_mem_teardown_active (st : ServerState) (u : String) (c : Bool)
    (o : Oracle) (hnd : st.activeSessions.Nodup) (hu : u ≠ "") :
    u ∉ (teardown st (some u) c o).1.activeSessions := by
  simp only [teardown]
  by_cases hm : u ∈ st.activeSessions
  · simp [hu, hm, hnd.mem_erase_iff]
  · simp [hm]

theorem events_eq_body (cfg : Config) (st : ServerState) (o : Oracle)
    (hs : st.slots ≠ 0) :
    (run_code cfg st o).events = Ev.acquireSlot :: Ev.mkTempDir ::
      ((runBody cfg { st with slots := st.slots - 1 } o).events ++
        (teardown (runBody cfg { st with slots := st.slots - 1 } o).state
          (runBody cfg { st with slots := st.slots - 1 } o).username
          (runBody cfg { st with slots := st.slots - 1 } o).containerCreated o).2 ++
        [Ev.releaseSlot]) := by
  simp only [run_code, if_neg hs]

theorem exitPath_eq_body (cfg : Config) (st : ServerState) (o : Oracle)
    (hs : st.slots ≠ 0) :
    (run_code cfg st o).exitPath =
      (runBody cfg { st with slots := st.slots - 1 } o).exitPath := by
  simp only [run_code, if_neg hs]

theorem state_eq_body (cfg : Config) (st : ServerState) (o : Oracle)
    (hs : st.slots ≠ 0) :
    (run_code cfg st o).state =
      { (teardown (runBody cfg { st with slots := st.slots - 1 } o).state
          (runBody cfg { st with slots := st.slots - 1 } o).username
          (runBody cfg { st with slots := st.slots - 1 } o).containerCreated o).1 with
        slots := (teardown (runBody cfg { st with slots := st.slots - 1 } o).state
          (runBody cfg { st with slots := st.slots - 1 } o).username
          (runBody cfg { st with slots := st.slots - 1 } o).containerCreated o).1.slots + 1 } := by
  simp only [run_code, if_neg hs]

theorem msgs_eq_body (cfg : Config) (st : ServerState) (o : Oracle)
    (hs : st.slots ≠ 0) :
    msgs (run_code cfg st o) =
      (runBody cfg { st with slots := st.slots - 1 } o).events.filterMap sentMsg := by
  rw [msgs, events_eq_body cfg st o hs]
  simp [sentMsg, List.filterMap_append, teardown_no_msgs]

theorem runBody_slots (cfg : Config) (st : ServerState) (o : Oracle) :
    (runBody cfg st o).state.slots = st.slots := by
  simp only [runBody]
  split_ifs <;> rfl

theorem runBody_username (cfg : Config) (st : ServerState) (o : Oracle)
    (h : o.failAt ≠ FailPoint.atReceive) :
    (runBody cfg st o).username = some o.username := by
  simp only [runBody]
  split_ifs <;> simp_all

theorem runBody_active (cfg : Config) (st : ServerState) (o : Oracle) :
    (runBody cfg st o).state.activeSessions = st.activeSessions ∨
    ((runBody cfg st o).state.activeSessions = o.username :: st.activeSessions ∧
      o.username ∉ st.activeSessions) := by
  simp only [runBody]
  split_ifs <;> simp_all

theorem runBody_container_iff (cfg : Config) (st : ServerState) (o : Oracle) :
    Ev.createContainer ∈ (runBody cfg st o).events ↔
      (runBody cfg st o).containerCreated = true := by
  simp only [runBody]
  split_ifs <;> simp [sendAll]

theorem runBody_start_shape (cfg : Config) (st : ServerState) (o : Oracle) :
    Ev.startContainer ∉ (runBody cfg st o).events ∨
    ∃ tail, (runBody cfg st o).events =
      Ev.createContainer :: Ev.attachSocket :: Ev.startContainer :: tail := by
  by_cases h1 : o.failAt = FailPoint.atReceive
  case pos => left; simp [runBody, h1]
  by_cases h2 : (check_brute_force cfg st.failedLogins o.ip o.now).2.1 = false
  case pos => left; simp [runBody, h1, h2]
  by_cases h3 : st.users.lookup o.username = some o.password
  case neg => left; simp [runBody, h1, h2, h3]
  by_cases h4 : o.username ∈ st.activeSessions
  case pos => left; simp [runBody, h1, h2, h3, h4]
  by_cases h5 : o.code = ""
  case pos => left; simp [runBody, h1, h2, h3, h4, h5]
  by_cases h6 : o.failAt = FailPoint.atCreate
  case pos => left; simp [runBody, h1, h2, h3, h4, h5, h6]
  by_cases h7 : o.failAt = FailPoint.atAttachStart
  case pos => left; simp [runBody, h1, h2, h3, h4, h5, h6, h7]
  by_cases h8 : o.failAt = FailPoint.atReport
  case pos => right; simp [runBody, h1, h2, h3, h4, h5, h6, h7, h8]
  case neg => right; simp [runBody, h1, h2, h3, h4, h5, h6, h7, h8]

theorem runBody_msgs_cases (cfg : Config) (st : ServerState) (o : Oracle) :
    ((runBody cfg st o).events.filterMap sentMsg = [] ∧
      (runBody cfg st o).exitPath = ExitPath.emptyCode) ∨
    ∃ pre c, (runBody cfg st o).events.filterMap sentMsg = pre ++ [Msg.endMsg c] ∧
      countEnd pre = 0 ∧ (runBody cfg st o).exitPath ≠ ExitPath.emptyCode := by
  by_cases h1 : o.failAt = FailPoint.atReceive
  case pos =>
    right
    refine ⟨[Msg.out systemErrorNotice], 1, ?_, ?_, ?_⟩ <;>
      simp [runBody, h1, sentMsg, countEnd, isEndMsg]
  by_cases h2 : (check_brute_force cfg st.failedLogins o.ip o.now).2.1 = false
  case pos =>
    right
    refine ⟨[Msg.out (rateLimitNotice
      (check_brute_force cfg st.failedLogins o.ip o.now).2.2)], 1, ?_, ?_, ?_⟩ <;>
      simp [runBody, h1, h2, sentMsg, countEnd, isEndMsg]
  by_cases h3 : st.users.lookup o.username = some o.password
  case neg =>
    right
    refine ⟨[Msg.out invalidCredsNotice], 1, ?_, ?_, ?_⟩ <;>
      simp [runBody, h1, h2, h3, sentMsg, countEnd, isEndMsg]
  by_cases h4 : o.username ∈ st.activeSessions
  case pos =>
    right
    refine ⟨[Msg.out alreadyActiveNotice], 1, ?_, ?_, ?_⟩ <;>
      simp [runBody, h1, h2, h3, h4, sentMsg, countEnd, isEndMsg]
  by_cases h5 : o.code = ""
  case pos =>
    left
    constructor <;> simp [runBody, h1, h2, h3, h4, h5]
  by_cases h6 : o.failAt = FailPoint.atCreate
  case pos =>
    right
    refine ⟨[Msg.out systemErrorNotice], 1, ?_, ?_, ?_⟩ <;>
      simp [runBody, h1, h2, h3, h4, h5, h6, sentMsg, countEnd, isEndMsg]
  by_cases h7 : o.failAt = FailPoint.atAttachStart
  case pos =>
    right
    refine ⟨[Msg.out systemErrorNotice], 1, ?_, ?_, ?_⟩ <;>
      simp [runBody, h1, h2, h3, h4, h5, h6, h7, sentMsg, countEnd, isEndMsg]
  by_cases h8 : o.failAt = FailPoint.atReport
  case pos =>
    right
    refine ⟨(if o.timedOut then [Msg.out (timeoutNotice cfg.executionTimeout)] else []) ++
      o.outputChunks.map Msg.out ++ [Msg.out systemErrorNotice], 1, ?_, ?_, ?_⟩
    · cases htO : o.timedOut <;>
        simp [runBody, h1, h2, h3, h4, h5, h6, h7, h8, htO, sentMsg, sendAll_msgs,
          List.filterMap_append]
    · cases htO : o.timedOut <;>
        simp [htO, countEnd_append, countEnd_outs, countEnd_nil, countEnd_out_one,
          countEnd, isEndMsg]
    · simp [runBody, h1, h2, h3, h4, h5, h6, h7, h8]
  case neg =>
    right
    refine ⟨(if o.timedOut then [Msg.out (timeoutNotice cfg.executionTimeout)] else []) ++
      o.outputChunks.map Msg.out ++
      classificationMsgs o.oomKilled o.exitCode o.timedOut ++
      fallbackLogMsgs (!o.outputChunks.isEmpty) o.exitCode o.logsFetchOk o.logs,
      o.exitCode, ?_, ?_, ?_⟩
    · cases htO : o.timedOut <;>
        simp [runBody, h1, h2, h3, h4, h5, h6, h7, h8, htO, sentMsg, sendAll_msgs,
          List.filterMap_append]
    · cases htO : o.timedOut <;>
        simp [htO, countEnd_append, countEnd_outs, countEnd_classification,
          countEnd_fallback, countEnd_nil, countEnd_out_one, countEnd_out_cons]
    · simp [runBody, h1, h2, h3, h4, h5, h6, h7, h8]

/-- Witness for C7: with the default configuration, an origin at the
threshold whose last failure was 10 seconds ago is blocked with 590
seconds of wait remaining. -/
theorem C7_check_brute_force_witness :
    (check_brute_force defaultConfig [("9.9.9.9", ⟨5, 0⟩)] "9.9.9.9" 10).2.1 = false ∧
    (check_brute_force defaultConfig [("9.9.9.9", ⟨5, 0⟩)] "9.9.9.9" 10).2.2 = 590 :=
  ⟨(C7_check_brute_force defaultConfig [("9.9.9.9", ⟨5, 0⟩)] "9.9.9.9" 10).1.mpr
      (by decide),
    by
      have := ((C7_check_brute_force defaultConfig [("9.9.9.9", ⟨5, 0⟩)] "9.9.9.9" 10).2.1
        ((C7_check_brute_force defaultConfig [("9.9.9.9", ⟨5, 0⟩)] "9.9.9.9" 10).1.mpr
          (by decide))).1
      simpa using this⟩

/-- Message stream of the completed-execution path: provided the session
is admitted, the body raises no exception, the guard allows it, the
credentials match, the identity is not already active and the program is
non-blank, the messages are the optional timeout notice, the live output
chunks, the classification notice, the fallback log and the termination
message carrying the container's exit code, in that order. -/
theorem run_msgs_ran (cfg : Config) (st : ServerState) (o : Oracle)
    (hs : st.slots ≠ 0) (hf : o.failAt = FailPoint.nofail)
    (hb : (check_brute_force cfg st.failedLogins o.ip o.now).2.1 = true)
    (hcred : st.users.lookup o.username = some o.password)
    (hdup : o.username ∉ st.activeSessions) (hcode : o.code ≠ "") :
    msgs (run_code cfg st o) =
      (if o.timedOut then [Msg.out (timeoutNotice cfg.executionTimeout)] else []) ++
        o.outputChunks.map Msg.out ++
        classificationMsgs o.oomKilled o.exitCode o.timedOut ++
        fallbackLogMsgs (!o.outputChunks.isEmpty) o.exitCode o.logsFetchOk o.logs ++
        [Msg.endMsg o.exitCode] := by
  rw [msgs_eq_body cfg st o hs]
  cases htO : o.timedOut <;>
    simp [runBody, hf, hb, hcred, hdup, hcode, htO, sentMsg, sendAll_msgs,
      List.filterMap_append, List.append_assoc]

/-- C1: the claim as frozen is refuted at the empty identity.  The
allowlist line `":pw"` gives `get_allowlist` an entry with the empty
username (source lines 183-187); a session authenticating with it (or
with a whitespace-only username, stripped to `""` at line 425) passes
every check, runs, and is added to the active-session set at line 472 —
but the `finally` block's truthiness test `if username and username in
active_sessions` (line 657) skips the empty string, so the identity is
still in the active set after the handler returns, even though the rest
of teardown (here the workspace removal) did run. -/
theorem C1_empty_identity_never_removed :
    oEmptyUser.failAt ≠ FailPoint.atReceive ∧
    (run_code defaultConfig stEmptyUser oEmptyUser).exitPath = ExitPath.ran ∧
    Ev.rmTempDir true ∈ (run_code defaultConfig stEmptyUser oEmptyUser).events ∧
    oEmptyUser.username ∈
      (run_code defaultConfig stEmptyUser oEmptyUser).state.activeSessions := by
  decide

/-- C1 (amended): on every exit path of an admitted session
(authentication rejection, duplicate rejection, blank program,
provisioning failure at any stage, post-execution internal error, client
disconnect before the first message, and normal completion), teardown
performs its steps: the container-removal attempt happens whenever a
container was created (independently of whether it succeeds), the
workspace-removal attempt always happens (independently of whether it or
the container removal succeeds, since the oracle's two failure flags are
unconstrained), and whenever the handler received a non-empty identity it
ends up absent from the active-session set — the empty identity is
exempted, exactly as the counterexample forces, because the `finally`
block's truthiness check skips it. -/
theorem C1_teardown_every_exit_path (cfg : Config) (st : ServerState)
    (o : Oracle) (hs : st.slots ≠ 0) (hnd : st.activeSessions.Nodup) :
    (Ev.createContainer ∈ (run_code cfg st o).events →
      Ev.removeContainer o.removeContainerOk ∈ (run_code cfg st o).events) ∧
    Ev.rmTempDir o.rmtreeOk ∈ (run_code cfg st o).events ∧
    (o.failAt ≠ FailPoint.atReceive → o.username ≠ "" →
      o.username ∉ (run_code cfg st o).state.activeSessions) := by
  have hE := events_eq_body cfg st o hs
  refine ⟨?_, ?_, ?_⟩
  · intro hc
    rw [hE] at hc ⊢
    simp only [List.mem_cons, List.mem_append] at hc
    rcases hc with h | h | (h | h) | h
    · exact absurd h (by simp)
    · exact absurd h (by simp)
    · have hcc : (runBody cfg { st with slots := st.slots - 1 } o).containerCreated = true :=
        (runBody_container_iff cfg { st with slots := st.slots - 1 } o).mp h
      have hm := teardown_container_mem
        (runBody cfg { st with slots := st.slots - 1 } o).state
        (runBody cfg { st with slots := st.slots - 1 } o).username o
      rw [hcc]
      simp only [List.mem_cons, List.mem_append]
      exact Or.inr (Or.inr (Or.inl (Or.inr hm)))
    · exact absurd h (teardown_no_create _ _ _ _)
    · exact absurd h (by simp at h)
  · rw [hE]
    have hm := teardown_rm_mem
      (runBody cfg { st with slots := st.slots - 1 } o).state
      (runBody cfg { st with slots := st.slots - 1 } o).username
      (runBody cfg { st with slots := st.slots - 1 } o).containerCreated o
    simp only [List.mem_cons, List.mem_append]
    exact Or.inr (Or.inr (Or.inl (Or.inr hm)))
  · intro hf hu
    have hun := runBody_username cfg { st with slots := st.slots - 1 } o hf
    have hnd1 : (runBody cfg { st with slots := st.slots - 1 } o).state.activeSessions.Nodup := by
      rcases runBody_active cfg { st with slots := st.slots - 1 } o with h | ⟨h, hnm⟩
      · rw [h]; exact hnd
      · rw [h]; exact List.nodup_cons.mpr ⟨hnm, hnd⟩
    have hstate : (run_code cfg st o).state.activeSessions =
        (teardown (runBody cfg { st with slots := st.slots - 1 } o).state
          (runBody cfg { st with slots := st.slots - 1 } o).username
          (runBody cfg { st with slots := st.slots - 1 } o).containerCreated
          o).1.activeSessions := by
      rw [state_eq_body cfg st o hs]
    rw [hstate, hun]
    exact not_mem_teardown_active _ _ _ _ hnd1 hu

/-- Witness for C1 at a session whose container removal and workspace
removal both fail: the other teardown steps still happen and the failing
steps are still attempted. -/
theorem C1_teardown_every_exit_path_witness :
    Ev.rmTempDir false ∈ (run_code defaultConfig stFree oBadCleanup).events ∧
    Ev.removeContainer false ∈ (run_code defaultConfig stFree oBadCleanup).events ∧
    "alice" ∉ (run_code defaultConfig stFree oBadCleanup).state.activeSessions := by
  have h := C1_teardown_every_exit_path defaultConfig stFree oBadCleanup
    (by decide) (by decide)
  exact ⟨h.2.1, h.1 (by decide), h.2.2 (by decide) (by decide)⟩

/-- C2: the rejection checks short-circuit in the source order: a full
server rejects as busy no matter what else holds; an admitted session
with an active abuse cooldown is rejected as rate-limited no matter what
the credentials or the active set say; with the guard passed, invalid
credentials reject regardless of the active set; the duplicate-identity
rejection fires only with the guard passed and the credentials valid,
and any duplicate rejection happens with the admission slot already
acquired (the trace starts with the slot acquisition). -/
theorem C2_rejection_order (cfg : Config) (st : ServerState) (o : Oracle) :
    (st.slots = 0 → (run_code cfg st o).exitPath = ExitPath.busy) ∧
    (st.slots ≠ 0 → o.failAt ≠ FailPoint.atReceive →
      (check_brute_force cfg st.failedLogins o.ip o.now).2.1 = false →
      (run_code cfg st o).exitPath = ExitPath.rateLimited) ∧
    (st.slots ≠ 0 → o.failAt ≠ FailPoint.atReceive →
      (check_brute_force cfg st.failedLogins o.ip o.now).2.1 = true →
      st.users.lookup o.username ≠ some o.password →
      (run_code cfg st o).exitPath = ExitPath.badCreds) ∧
    (st.slots ≠ 0 → o.failAt ≠ FailPoint.atReceive →
      (check_brute_force cfg st.failedLogins o.ip o.now).2.1 = true →
      st.users.lookup o.username = some o.password →
      o.username ∈ st.activeSessions →
      (run_code cfg st o).exitPath = ExitPath.duplicate) ∧
    ((run_code cfg st o).exitPath = ExitPath.duplicate →
      (run_code cfg st o).events.head? = some Ev.acquireSlot) := by
  refine ⟨?_, ?_, ?_, ?_, ?_⟩
  · intro h; simp [run_code, h]
  · intro hs hf hb
    rw [exitPath_eq_body cfg st o hs]
    simp [runBody, hf, hb]
  · intro hs hf hb hcred
    rw [exitPath_eq_body cfg st o hs]
    simp [runBody, hf, hb, hcred]
  · intro hs hf hb hcred hdup
    rw [exitPath_eq_body cfg st o hs]
    simp [runBody, hf, hb, hcred, hdup]
  · intro hd
    by_cases hs : st.slots = 0
    · simp [run_code, hs] at hd
    · rw [events_eq_body cfg st o hs]; rfl

/-- Witness for C2: a full server rejects as busy. -/
theorem C2_rejection_order_witness :
    (run_code defaultConfig stFull oRun).exitPath = ExitPath.busy :=
  (C2_rejection_order defaultConfig stFull oRun).1 (by decide)

/-- C3: with all slots held (a configuration with maximum concurrency N
has `slots = 0` exactly when N sessions hold admission slots), a further
session is rejected with the busy notice and a termination message with
code 1 while leaving the state untouched and never acquiring a slot;
when a slot is free, the session's slot is restored on return and the
slot release is the very last event, strictly after the final teardown
step. -/
theorem C3_capacity (cfg : Config) (st : ServerState) (o : Oracle) :
    (st.slots = 0 →
      msgs (run_code cfg st o) = [Msg.out busyNotice, Msg.endMsg 1] ∧
      (run_code cfg st o).state = st ∧
      Ev.acquireSlot ∉ (run_code cfg st o).events) ∧
    (st.slots ≠ 0 →
      (run_code cfg st o).state.slots = st.slots ∧
      ∃ pre, (run_code cfg st o).events =
        pre ++ [Ev.rmTempDir o.rmtreeOk, Ev.releaseSlot]) := by
  constructor
  · intro h
    refine ⟨?_, ?_, ?_⟩ <;> simp [run_code, h, msgs, sentMsg]
  · intro hs
    constructor
    · have e := state_eq_body cfg st o hs
      have h1 := teardown_slots
        (runBody cfg { st with slots := st.slots - 1 } o).state
        (runBody cfg { st with slots := st.slots - 1 } o).username
        (runBody cfg { st with slots := st.slots - 1 } o).containerCreated o
      have h2 := runBody_slots cfg { st with slots := st.slots - 1 } o
      rw [e]
      show (teardown _ _ _ o).1.slots + 1 = st.slots
      rw [h1, h2]
      show st.slots - 1 + 1 = st.slots
      omega
    · obtain ⟨q, hq⟩ := teardown_tail
        (runBody cfg { st with slots := st.slots - 1 } o).state
        (runBody cfg { st with slots := st.slots - 1 } o).username
        (runBody cfg { st with slots := st.slots - 1 } o).containerCreated o
      refine ⟨Ev.acquireSlot :: Ev.mkTempDir ::
        ((runBody cfg { st with slots := st.slots - 1 } o).events ++ q), ?_⟩
      rw [events_eq_body cfg st o hs, hq]
      simp [List.append_assoc]

/-- Witness for C3: the full server's reply, and the restored slot count
of an admitted session. -/
theorem C3_capacity_witness :
    msgs (run_code defaultConfig stFull oRun) = [Msg.out busyNotice, Msg.endMsg 1] ∧
    (run_code defaultConfig stFree oRun).state.slots = 10 := by
  have h1 := (C3_capacity defaultConfig stFull oRun).1 (by decide)
  have h2 := (C3_capacity defaultConfig stFree oRun).2 (by decide)
  exact ⟨h1.1, h2.1⟩

/-- C4: the claim is refuted by the code.  With alice's first session
running (`stHeld` has alice in the active set and a held slot), a second
session authenticating as alice is rejected as a duplicate — but its
`finally` block removes alice from `active_sessions` (the membership test
there does not check whether this session added the entry), so the
rejection does not leave shared state unchanged, and a third concurrent
session as alice is then accepted while the first still runs. -/
theorem C4_duplicate_rejection_clears_active_set :
    (run_code defaultConfig stHeld oRun).exitPath = ExitPath.duplicate ∧
    (run_code defaultConfig stHeld oRun).state.activeSessions = [] ∧
    (run_code defaultConfig ((run_code defaultConfig stHeld oRun).state) oRun).exitPath =
      ExitPath.ran := by decide

/-- C5: outcome classification follows the source's decision order — the
OOM flag first yields the out-of-memory notice; otherwise exit code 137
yields the likely-process-limit notice exactly when the run did not reach
the execution timeout; any other non-zero exit code, and the zero exit
code, add no notice — and the final termination message of the session
carries the container's exit code. -/
theorem C5_outcome_classification (cfg : Config) (st : ServerState) (o : Oracle)
    (hs : st.slots ≠ 0) (hf : o.failAt = FailPoint.nofail)
    (hb : (check_brute_force cfg st.failedLogins o.ip o.now).2.1 = true)
    (hcred : st.users.lookup o.username = some o.password)
    (hdup : o.username ∉ st.activeSessions) (hcode : o.code ≠ "") :
    (o.oomKilled = true →
      classificationMsgs o.oomKilled o.exitCode o.timedOut = [Msg.out oomNotice]) ∧
    (o.oomKilled = false → o.exitCode = 137 → o.timedOut = false →
      classificationMsgs o.oomKilled o.exitCode o.timedOut = [Msg.out pidLimitNotice]) ∧
    (o.oomKilled = false → o.exitCode = 137 → o.timedOut = true →
      classificationMsgs o.oomKilled o.exitCode o.timedOut = []) ∧
    (o.oomKilled = false → o.exitCode ≠ 137 →
      classificationMsgs o.oomKilled o.exitCode o.timedOut = []) ∧
    (∃ pre, msgs (run_code cfg st o) =
      pre ++ classificationMsgs o.oomKilled o.exitCode o.timedOut ++
        fallbackLogMsgs (!o.outputChunks.isEmpty) o.exitCode o.logsFetchOk o.logs ++
        [Msg.endMsg o.exitCode]) ∧
    (msgs (run_code cfg st o)).getLast? = some (Msg.endMsg o.exitCode) := by
  have hm := run_msgs_ran cfg st o hs hf hb hcred hdup hcode
  refine ⟨?_, ?_, ?_, ?_, ?_, ?_⟩
  · intro h; simp [classificationMsgs, h]
  · intro h1 h2 h3; simp [classificationMsgs, h1, h2, h3]
  · intro h1 h2 h3; simp [classificationMsgs, h1, h2, h3]
  · intro h1 h2; simp [classificationMsgs, h1, h2]
  · exact ⟨(if o.timedOut then [Msg.out (timeoutNotice cfg.executionTimeout)] else []) ++
      o.outputChunks.map Msg.out, by rw [hm]⟩
  · rw [hm]; simp [List.getLast?_concat]

/-- Witness for C5: the successful concrete run ends with the termination
message carrying exit code 0. -/
theorem C5_outcome_classification_witness :
    (msgs (run_code defaultConfig stFree oRun)).getLast? = some (Msg.endMsg 0) := by
  have h := C5_outcome_classification defaultConfig stFree oRun (by decide) rfl
    (by decide) (by decide) (by decide) (by decide)
  exact h.2.2.2.2.2

/-- C6: the claim as frozen is refuted by the blank-program session: its
first message is received (the oracle raises no exception at the first
receive) and the credentials are valid, yet the handler returns without
sending any message at all, so no termination message is emitted. -/
theorem C6_blank_program_no_end_message :
    oEmpty.failAt ≠ FailPoint.atReceive ∧
    msgs (run_code defaultConfig stFree oEmpty) = [] := by decide

/-- C6 (amended): on every session except the one that passes all
rejection checks with a missing or blank program, exactly one termination
message is emitted and it is the last message the client receives; the
blank-program session emits no message at all. -/
theorem C6_single_final_end_message (cfg : Config) (st : ServerState)
    (o : Oracle) :
    ((run_code cfg st o).exitPath = ExitPath.emptyCode →
      msgs (run_code cfg st o) = []) ∧
    ((run_code cfg st o).exitPath ≠ ExitPath.emptyCode →
      countEnd (msgs (run_code cfg st o)) = 1 ∧
      ∃ c, (msgs (run_code cfg st o)).getLast? = some (Msg.endMsg c)) := by
  by_cases hs : st.slots = 0
  · constructor
    · intro h; simp [run_code, hs] at h
    · intro _
      constructor
      · simp [run_code, hs, msgs, sentMsg, countEnd, isEndMsg]
      · exact ⟨1, by simp [run_code, hs, msgs, sentMsg]⟩
  · have hm := msgs_eq_body cfg st o hs
    have hp := exitPath_eq_body cfg st o hs
    rcases runBody_msgs_cases cfg { st with slots := st.slots - 1 } o with
      ⟨h1, h2⟩ | ⟨pre, c, h1, h2, h3⟩
    · constructor
      · intro _; rw [hm, h1]
      · intro hne; exact absurd (hp.trans h2) hne
    · constructor
      · intro he; exact absurd (hp.symm.trans he) h3
      · intro _
        rw [hm, h1]
        refine ⟨?_, ⟨c, ?_⟩⟩
        · rw [countEnd_append, h2]; rfl
        · simp [List.getLast?_concat]

/-- Witness for C6 as amended: the successful concrete run emits exactly
one termination message. -/
theorem C6_single_final_end_message_witness :
    countEnd (msgs (run_code defaultConfig stFree oRun)) = 1 := by
  have h := (C6_single_final_end_message defaultConfig stFree oRun).2 (by decide)
  exact h.1

/-- C8: in a completed execution with no live output chunk and a non-zero
exit code, a successful non-empty buffered-log fetch is forwarded as an
output message immediately before the termination message, and a failed
fetch is swallowed — the fallback produces nothing and the termination
message is still the last message sent. -/
theorem C8_fallback_log_fetch (cfg : Config) (st : ServerState) (o : Oracle)
    (hs : st.slots ≠ 0) (hf : o.failAt = FailPoint.nofail)
    (hb : (check_brute_force cfg st.failedLogins o.ip o.now).2.1 = true)
    (hcred : st.users.lookup o.username = some o.password)
    (hdup : o.username ∉ st.activeSessions) (hcode : o.code ≠ "")
    (hchunks : o.outputChunks = []) (hec : o.exitCode ≠ 0) :
    (o.logsFetchOk = true → o.logs ≠ "" →
      ∃ pre, msgs (run_code cfg st o) =
        pre ++ [Msg.out o.logs, Msg.endMsg o.exitCode]) ∧
    (o.logsFetchOk = false →
      fallbackLogMsgs (!o.outputChunks.isEmpty) o.exitCode o.logsFetchOk o.logs = [] ∧
      (msgs (run_code cfg st o)).getLast? = some (Msg.endMsg o.exitCode)) := by
  have hm := run_msgs_ran cfg st o hs hf hb hcred hdup hcode
  constructor
  · intro hok hlogs
    refine ⟨(if o.timedOut then [Msg.out (timeoutNotice cfg.executionTimeout)] else []) ++
      classificationMsgs o.oomKilled o.exitCode o.timedOut, ?_⟩
    rw [hm]
    simp [fallbackLogMsgs, hchunks, hec, hok, hlogs, List.append_assoc]
  · intro hnok
    constructor
    · simp [fallbackLogMsgs, hnok]
    · rw [hm]; simp [List.getLast?_concat]

/-- Witness for C8: the instant-crash concrete session gets its traceback
forwarded right before the termination message with exit code 1. -/
theorem C8_fallback_log_fetch_witness :
    ∃ pre, msgs (run_code defaultConfig stFree oCrash) =
      pre ++ [Msg.out "Traceback", Msg.endMsg 1] := by
  have h := C8_fallback_log_fetch defaultConfig stFree oCrash (by decide) rfl
    (by decide) (by decide) (by decide) (by decide) rfl (by decide)
  exact h.1 rfl (by decide)

/-- C9: whenever the container is started, the attach of the combined
input/output socket immediately precedes the start in the session's event
trace — the attach happens strictly before the container process runs. -/
theorem C9_attach_before_start (cfg : Config) (st : ServerState) (o : Oracle)
    (h : Ev.startContainer ∈ (run_code cfg st o).events) :
    ∃ pre post, (run_code cfg st o).events =
      pre ++ Ev.attachSocket :: Ev.startContainer :: post := by
  by_cases hs : st.slots = 0
  · exact absurd h (by simp [run_code, hs])
  · rw [events_eq_body cfg st o hs] at h ⊢
    rcases runBody_start_shape cfg { st with slots := st.slots - 1 } o with
      hno | ⟨tail, htail⟩
    · exfalso
      simp only [List.mem_cons, List.mem_append] at h
      rcases h with h | h | (h | h) | h
      · exact absurd h (by simp)
      · exact absurd h (by simp)
      · exact hno h
      · exact teardown_no_start _ _ _ _ h
      · exact absurd h (by simp at h)
    · rw [htail]
      refine ⟨[Ev.acquireSlot, Ev.mkTempDir, Ev.createContainer],
        tail ++ (teardown (runBody cfg { st with slots := st.slots - 1 } o).state
          (runBody cfg { st with slots := st.slots - 1 } o).username
          (runBody cfg { st with slots := st.slots - 1 } o).containerCreated o).2 ++
          [Ev.releaseSlot], ?_⟩
      simp [List.append_assoc]

/-- Witness for C9: the successful concrete run's trace contains the
attach-then-start pair. -/
theorem C9_attach_before_start_witness :
    ∃ pre post, (run_code defaultConfig stFree oRun).events =
      pre ++ Ev.attachSocket :: Ev.startContainer :: post :=
  C9_attach_before_start defaultConfig stFree oRun (by decide)

end Pypam
